import Mathlib

/-!
Verification development for the Food Advisor repository.

The repository holds two small HTTP services:
* `src/backend/app.py` — a Flask catalog/filter service (`/restaurants`,
  `POST /recommend`) over a SQLAlchemy store of restaurants and menu items;
* `src/backend/main_app.py` — a FastAPI plan-generation service
  (`POST /recommend`) that fetches budget-affordable menu items, renders a
  prompt and forwards it to a hosted text-generation model.

The embedding below translates the decision-making content of both services
into pure Lean functions.  Machine reals (Python floats) are modelled by `ℚ`,
Python ints by `ℤ`/`ℕ`, Python strings by `String` with the Python string
operations re-expressed over the code-point list `String.data` (Python
strings are sequences of code points).  Fallible steps return `Except`.
The database engine and the inference endpoint are external collaborators:
their stored rows and their HTTP response are passed in as explicit inputs,
and a boolean input models a failing database call.  Request handlers also
return the list of connection acquire/release events they perform, so that
the per-request resource discipline can be stated.
-/

deriving instance DecidableEq for Except

attribute [local semireducible] Rat.ofScientific Rat.mul Rat.add Rat.sub Rat.inv

/-- A JSON value as far as the catalog service's request payload needs:
`null` (also standing for an absent key, since `dict.get` returns `None`
for a missing key), a number, or a string. -/
inductive JVal where
  | null : JVal
  | num : ℚ → JVal
  | str : String → JVal
deriving DecidableEq

/-- Python truthiness of a JSON value: `None`, `0` and `""` are falsy,
everything else is truthy (models `if restaurant_id:` in `app.py`). -/
def jTruthy : JVal → Bool
  | JVal.null => false
  | JVal.num q => q != 0
  | JVal.str s => s != ""

/-- Code-point-wise lowercasing, modelling Python `str.lower()`
(`app.py` line 95).  Python lowercases every character of the sequence;
for the ASCII goal strings the services use this agrees with
`Char.toLower` applied pointwise. -/
def pyLowerStr (s : String) : String :=
  String.mk (s.data.map Char.toLower)

/-- Decimal value of a digit list (most significant first). -/
def digitsToNat (cs : List Char) : ℕ :=
  cs.foldl (fun acc c => acc * 10 + (c.toNat - 48)) 0

/-- Modelled fragment of CPython `float(str)` literal parsing: optional
surrounding whitespace, an optional sign, then digits with an optional
decimal point (at least one digit in total).  Exponents, `inf`, `nan` and
underscore separators are outside the fragment the services can receive
from JSON-decoded numeric strings and are not modelled; no claim depends
on the exact accepted set of strings. -/
def parsePyFloat (s : String) : Option ℚ :=
  let cs := ((s.data.dropWhile Char.isWhitespace).reverse.dropWhile
      Char.isWhitespace).reverse
  let signed : ℚ × List Char :=
    match cs with
    | '-' :: t => (-1, t)
    | '+' :: t => (1, t)
    | _ => (1, cs)
  let ip := signed.2.takeWhile Char.isDigit
  let rest := signed.2.dropWhile Char.isDigit
  match rest with
  | [] => if ip.isEmpty then none else some (signed.1 * digitsToNat ip)
  | '.' :: frac =>
    if frac.all Char.isDigit && !(ip.isEmpty && frac.isEmpty) then
      some (signed.1 *
        ((digitsToNat ip : ℚ) + (digitsToNat frac : ℚ) / (10 : ℚ) ^ frac.length))
    else none
  | _ => none

/-- Model of Python `float(x)` on a JSON value, as used on the four
payload fields of `app.py`'s `/recommend` (lines 92-94).  The error
strings are the CPython exception messages raised by `float`; note that
they never mention the caller's field name. -/
def pyFloat : JVal → Except String ℚ
  | JVal.null =>
    Except.error "float() argument must be a string or a real number, not 'NoneType'"
  | JVal.num q => Except.ok q
  | JVal.str s =>
    match parsePyFloat s with
    | some q => Except.ok q
    | none => Except.error ("could not convert string to float: '" ++ s ++ "'")

/-- Model of `payload.get("goal").lower()` (`app.py` line 95): a string is
lowercased; `None` (missing key) and numbers raise `AttributeError`, whose
CPython message names the value's type, never the field. -/
def pyLower : JVal → Except String String
  | JVal.null => Except.error "'NoneType' object has no attribute 'lower'"
  | JVal.num _ => Except.error "'float' object has no attribute 'lower'"
  | JVal.str s => Except.ok (pyLowerStr s)

/-- Python `int(x)` on a real value: truncation toward zero. -/
def pyInt (q : ℚ) : ℤ :=
  if 0 ≤ q then Int.floor q else Int.ceil q

/-- `compute_target_calories` (`app.py` lines 52-60): crude BMR with
hardcoded height 175, age 30 and male coefficients, plus a goal-dependent
±500 offset, truncated to an int. -/
def compute_target_calories (weight_kg : ℚ) (goal : String) : ℤ :=
  let RMR : ℚ := 10 * weight_kg + 6.25 * 175 - 5 * 30 + 5
  let delta : ℚ := if goal == "gain" then 500 else -500
  pyInt (RMR + delta)

/-- A row of the `restaurants` table. -/
structure Restaurant where
  id : ℤ
  name : String
  address : String
  phone : String
deriving DecidableEq

/-- A row of the `menu_items` table.  Columns are modelled non-null. -/
structure MenuItem where
  id : ℤ
  restaurant_id : ℤ
  name : String
  calories : ℤ
  protein_g : ℚ
  carbs_g : ℚ
  fats_g : ℚ
  price_usd : ℚ
deriving DecidableEq

/-- The relational store the catalog service queries. -/
structure CatDB where
  restaurants : List Restaurant
  menu_items : List MenuItem
deriving DecidableEq

/-- The JSON body of a catalog `/recommend` request.  A key absent from
the posted object is represented by `JVal.null`, matching `payload.get`. -/
structure CatPayload where
  tall_cm : JVal
  weight_kg : JVal
  budget_usd : JVal
  goal : JVal
  restaurant_id : JVal
deriving DecidableEq

/-- One element of the catalog `/recommend` response array
(`app.py` lines 122-134). -/
structure ResItem where
  name : String
  calories : ℤ
  protein_g : ℚ
  carbs_g : ℚ
  fats_g : ℚ
  price_usd : ℚ
  restaurant_id : ℤ
  restaurant_name : String
deriving DecidableEq

/-- How a catalog handler can fail: a Flask `abort(400, msg)`, or an
uncaught exception escaping the handler (database failure, attribute
access on a dangling relationship). -/
inductive CatErr where
  | badRequest : String → CatErr
  | exception : CatErr
deriving DecidableEq

/-- Database-connection lifecycle events performed by a handler. -/
inductive DbEvent where
  | acquire : DbEvent
  | release : DbEvent
deriving DecidableEq

/-- A trace releases everything it acquires. -/
def releasesAll (tr : List DbEvent) : Bool :=
  tr.count DbEvent.release == tr.count DbEvent.acquire

/-- SQL comparison `MenuItem.restaurant_id == restaurant_id` between the
integer column and the JSON payload value (`app.py` line 111): equality
when the value is that number; a value of another storage class never
equals an integer column. -/
def ridMatches (v : JVal) (rid : ℤ) : Bool :=
  match v with
  | JVal.num q => q == (rid : ℚ)
  | _ => false

/-- The query base after the optional restaurant restriction
(`app.py` lines 108-111): the whole `menu_items` table unless the payload's
`restaurant_id` is truthy, in which case only that restaurant's rows. -/
def candidateItems (rid : JVal) (db : CatDB) : List MenuItem :=
  if jTruthy rid then
    db.menu_items.filter (fun m => ridMatches rid m.restaurant_id)
  else
    db.menu_items

/-- The filtered, capped query of `app.py` lines 115-121: price within
budget, calories within ±200 of the target, first 10 rows. -/
def queryItems (rid : JVal) (budget_usd : ℚ) (target_cal : ℤ) (db : CatDB) :
    List MenuItem :=
  ((candidateItems rid db).filter (fun m =>
      decide (m.price_usd ≤ budget_usd) &&
      decide (m.calories ≤ target_cal + 200) &&
      decide (target_cal - 200 ≤ m.calories))).take 10

/-- Serialization of one returned row (`app.py` lines 122-134);
`restaurant_name` is the owning restaurant's name found through the
relationship. -/
def serializeItem (db : CatDB) (m : MenuItem) : ResItem :=
  { name := m.name
    calories := m.calories
    protein_g := m.protein_g
    carbs_g := m.carbs_g
    fats_g := m.fats_g
    price_usd := m.price_usd
    restaurant_id := m.restaurant_id
    restaurant_name :=
      ((db.restaurants.find? (fun r => r.id == m.restaurant_id)).map
        Restaurant.name).getD "" }

/-- `i.restaurant` resolves (the relationship is not dangling); when it
does not, `i.restaurant.name` raises `AttributeError` in the handler. -/
def itemHasRestaurant (db : CatDB) (m : MenuItem) : Bool :=
  (db.restaurants.find? (fun r => r.id == m.restaurant_id)).isSome

/-- The catalog `POST /recommend` handler (`app.py` lines 75-136).
`payload = none` models a missing/empty JSON body (`if not payload`).
`dbFail = true` models the external database engine failing when the
query at line 121 executes; the session was already opened at line 107
and, with no `try/finally` in the source, is then never closed.  The
result pairs the HTTP outcome with the session acquire/release trace. -/
def catalogRecommend (payload : Option CatPayload) (db : CatDB)
    (dbFail : Bool) : Except CatErr (List ResItem) × List DbEvent :=
  match payload with
  | none => (Except.error (CatErr.badRequest "Missing JSON payload"), [])
  | some pl =>
    match pyFloat pl.tall_cm with
    | Except.error e =>
      (Except.error (CatErr.badRequest ("Invalid payload: " ++ e)), [])
    | Except.ok _tall_cm =>
      match pyFloat pl.weight_kg with
      | Except.error e =>
        (Except.error (CatErr.badRequest ("Invalid payload: " ++ e)), [])
      | Except.ok weight_kg =>
        match pyFloat pl.budget_usd with
        | Except.error e =>
          (Except.error (CatErr.badRequest ("Invalid payload: " ++ e)), [])
        | Except.ok budget_usd =>
          match pyLower pl.goal with
          | Except.error e =>
            (Except.error (CatErr.badRequest ("Invalid payload: " ++ e)), [])
          | Except.ok goal =>
            if goal == "gain" || goal == "lose" then
              let target_cal := compute_target_calories weight_kg goal
              if dbFail then
                (Except.error CatErr.exception, [DbEvent.acquire])
              else
                let items := queryItems pl.restaurant_id budget_usd target_cal db
                if items.all (itemHasRestaurant db) then
                  (Except.ok (items.map (serializeItem db)),
                    [DbEvent.acquire, DbEvent.release])
                else
                  (Except.error CatErr.exception, [DbEvent.acquire])
            else
              (Except.error (CatErr.badRequest "Goal must be 'gain' or 'lose'"), [])

/-- One element of the `GET /restaurants` response. -/
structure RestOut where
  id : ℤ
  name : String
  address : String
  phone : String
deriving DecidableEq

/-- The `GET /restaurants` handler (`app.py` lines 63-72).  `dbFail`
models the engine failing at the query; the session opened at line 65 is
then never closed (no `try/finally` in the source). -/
def getRestaurants (db : CatDB) (dbFail : Bool) :
    Except CatErr (List RestOut) × List DbEvent :=
  if dbFail then
    (Except.error CatErr.exception, [DbEvent.acquire])
  else
    (Except.ok (db.restaurants.map (fun r =>
        { id := r.id, name := r.name, address := r.address, phone := r.phone })),
      [DbEvent.acquire, DbEvent.release])

/-- `needle` occurs as a contiguous substring of `hay` (by code points). -/
def containsSub (needle hay : String) : Bool :=
  (List.range (hay.data.length + 1)).any
    (fun i => needle.data.isPrefixOf (hay.data.drop i))

/-!
Plan-generation service (`src/backend/main_app.py`).
-/

/-- The `goal` field of the plan-generation profile
(`Literal["lose_weight", "gain_weight"]`). -/
inductive Goal where
  | lose_weight : Goal
  | gain_weight : Goal
deriving DecidableEq

/-- The validated `UserProfile` pydantic model (`main_app.py` lines 22-26). -/
structure UserProfile where
  height_cm : ℤ
  weight_kg : ℚ
  daily_budget_egp : ℚ
  goal : Goal
deriving DecidableEq

/-- One joined row `(r.name, m.item_en, m.item_ar, m.price_egp)` of the
query in `fetch_affordable_items`, already converted as the dict
comprehension does (`float(p)`). -/
structure PlanItem where
  restaurant : String
  en : String
  ar : String
  price : ℚ
deriving DecidableEq

/-- `fetch_affordable_items` (`main_app.py` lines 34-52).  `rows` is the
joined `menu_item ⋈ restaurant` relation in the row order the external
database engine chose for `ORDER BY random()`; the `WHERE` clause and
`LIMIT 30` become filter and take. -/
def fetch_affordable_items (rows : List PlanItem) (budget : ℚ) :
    List PlanItem :=
  (rows.filter (fun it => decide (it.price ≤ budget))).take 30

/-- Model of the f-string rendering of a Python float (profile weight and
budget in `build_prompt`).  Integral floats print with a trailing `.0` as
CPython does; the exact shortest-repr digits of non-integral floats are
not reproduced (no claim depends on the digit sequence, only on the
rendering being a fixed function of the value). -/
def pyFloatRepr (q : ℚ) : String :=
  if q.den = 1 then toString q.num ++ ".0" else toString q

/-- Model of the `{...:.2f}` format of an item price in `build_prompt`:
two decimal digits.  Ties are rounded up here, while CPython rounds the
underlying binary float half-to-even; no claim depends on the digits. -/
def fmt2f (q : ℚ) : String :=
  let cents : ℤ := Int.floor (q * 100 + 1 / 2)
  let whole := cents / 100
  let frac := (cents % 100).natAbs
  toString whole ++ "." ++ (if frac < 10 then "0" else "") ++ toString frac

/-- `build_prompt` (`main_app.py` lines 54-73): one profile line, a
markdown table of the items, and a fixed instruction paragraph, joined by
blank lines. -/
def build_prompt (profile : UserProfile) (items : List PlanItem) : String :=
  let profile_line :=
    "Height: " ++ toString profile.height_cm ++ " cm, Weight: " ++
    pyFloatRepr profile.weight_kg ++ " kg, " ++
    "Budget: " ++ pyFloatRepr profile.daily_budget_egp ++ " EGP per day, " ++
    "Goal: " ++
    (if profile.goal = Goal.lose_weight then "lose weight" else "gain weight") ++
    "."
  let table :=
    ["| Restaurant | Item (EN) | Item (AR) | Price (EGP) |",
     "|------------|-----------|-----------|------------|"] ++
    items.map (fun it =>
      "| " ++ it.restaurant ++ " | " ++ it.en ++ " | " ++ it.ar ++ " | " ++
      fmt2f it.price ++ " |")
  let menu_table := String.intercalate "\n" table
  let instruction :=
    "Using the table above, propose a full‑day meal plan (breakfast, lunch, dinner, up to two snacks) " ++
    "that fits the budget and the user’s goal. For each dish list restaurant, English & Arabic name, price, " ++
    "and a short nutrition note (e.g., high‑protein, low‑carb). End with the total daily cost and a friendly motivational closing."
  profile_line ++ "\n\n" ++ menu_table ++ "\n\n" ++ instruction

/-- The inference collaborator's HTTP response, reduced to what the code
reads: the status code and, when successful, the decoded
`json()[0]["generated_text"]` field. -/
structure HFResponse where
  status : ℕ
  generated_text : String
deriving DecidableEq

/-- How the plan-generation handler can fail: a `fastapi.HTTPException`
with a status and detail, an `httpx.HTTPStatusError` escaping
`raise_for_status` and carrying the collaborator's original status, or a
database-driver exception escaping the fetch. -/
inductive PlanError where
  | httpEx : ℕ → String → PlanError
  | upstream : ℕ → PlanError
  | dbFailure : PlanError
deriving DecidableEq

/-- httpx `Response.is_success`: a 2xx status.  `raise_for_status` raises
for every other status. -/
def statusSuccess (c : ℕ) : Bool :=
  decide (200 ≤ c) && decide (c < 300)

/-- `call_hf` (`main_app.py` lines 82-90) applied to the collaborator's
response: a 429 becomes the distinct quota `HTTPException`, any other
non-2xx makes `raise_for_status` raise an error carrying the original
status, and a success yields the generated text. -/
def call_hf (resp : HFResponse) : Except PlanError String :=
  if resp.status == 429 then
    Except.error (PlanError.httpEx 429 "HF free‑tier token quota exceeded")
  else if statusSuccess resp.status then
    Except.ok resp.generated_text
  else
    Except.error (PlanError.upstream resp.status)

/-- Python `s.startswith(pre)`: code-point prefix test
(`main_app.py` line 103). -/
def pyStartsWith (s pre : String) : Bool :=
  pre.data.isPrefixOf s.data

/-- Python slicing `s[n:]` by code points (`main_app.py` line 104). -/
def pyDrop (s : String) (n : ℕ) : String :=
  String.mk (s.data.drop n)

/-- Python `len(s)`: the number of code points. -/
def pyLen (s : String) : ℕ :=
  s.data.length

/-- Python `s.strip()`: remove leading and trailing whitespace
(`main_app.py` line 104).  Modelled with `Char.isWhitespace`; Python's
whitespace set is the Unicode one, which agrees on the ASCII whitespace
the claims exercise. -/
def pyStrip (s : String) : String :=
  String.mk
    (((s.data.dropWhile Char.isWhitespace).reverse.dropWhile
      Char.isWhitespace).reverse)

/-- The plan-generation `POST /recommend` handler together with its
`get_db` dependency (`main_app.py` lines 12-17 and 95-105).  `rows` is
the joined relation as ordered by the database, `dbFail` models the
database call inside `fetch_affordable_items` raising (the `finally` in
`get_db` still closes the connection), and `resp` is the inference
collaborator's response.  The result carries the handler outcome, the
number of calls made to the inference collaborator, and the
connection-lifecycle trace. -/
def recommendPlan (profile : UserProfile) (rows : List PlanItem)
    (dbFail : Bool) (resp : HFResponse) :
    Except PlanError String × ℕ × List DbEvent :=
  if dbFail then
    (Except.error PlanError.dbFailure, 0, [DbEvent.acquire, DbEvent.release])
  else
    let items := fetch_affordable_items rows profile.daily_budget_egp
    if items.isEmpty then
      (Except.error (PlanError.httpEx 404 "No menu items within budget"), 0,
        [DbEvent.acquire, DbEvent.release])
    else
      let prompt := build_prompt profile items
      match call_hf resp with
      | Except.error e =>
        (Except.error e, 1, [DbEvent.acquire, DbEvent.release])
      | Except.ok llm_answer =>
        let body :=
          if pyStartsWith llm_answer prompt then
            pyStrip (pyDrop llm_answer (pyLen prompt))
          else
            llm_answer
        (Except.ok body, 1, [DbEvent.acquire, DbEvent.release])

/-!
Shared helper lemmas.
-/

lemma pyStartsWith_append (p r : String) : pyStartsWith (p ++ r) p = true := by
  simp [pyStartsWith, String.data_append]

lemma pyDrop_append (p r : String) : pyDrop (p ++ r) (pyLen p) = r := by
  simp [pyDrop, pyLen, String.data_append, List.drop_left]

/-- A valid sample payload used to instantiate theorems with hypotheses. -/
def samplePayload : CatPayload :=
  { tall_cm := JVal.num 175, weight_kg := JVal.num 70,
    budget_usd := JVal.num 12, goal := JVal.str "lose",
    restaurant_id := JVal.null }

/-- A one-restaurant, one-item sample store. -/
def sampleDb : CatDB :=
  { restaurants := [{ id := 1, name := "R1", address := "A", phone := "P" }],
    menu_items := [{ id := 1, restaurant_id := 1, name := "Bowl",
                     calories := 1200, protein_g := 30, carbs_g := 40,
                     fats_g := 10, price_usd := 10 }] }

/-- The serialized row `catalogRecommend` returns on the sample store. -/
def sampleOut : ResItem :=
  { name := "Bowl", calories := 1200, protein_g := 30, carbs_g := 40,
    fats_g := 10, price_usd := 10, restaurant_id := 1,
    restaurant_name := "R1" }

/-- A sample plan-generation profile (the spec's scenario profile). -/
def sampleProfile : UserProfile :=
  { height_cm := 175, weight_kg := 70, daily_budget_egp := 50,
    goal := Goal.lose_weight }

/-- A sample affordable joined row for the plan-generation service. -/
def sampleRow : PlanItem :=
  { restaurant := "KFC", en := "Grilled", ar := "X", price := 45 }

/-- Inversion of a successful catalog `/recommend` run: the fields
converted, the goal passed the enum check, the database call succeeded,
and the response is the serialized capped query. -/
lemma catalogRecommend_ok_inv (pl : CatPayload) (db : CatDB) (dbF : Bool)
    (res : List ResItem)
    (h : (catalogRecommend (some pl) db dbF).1 = Except.ok res) :
    ∃ w b g, pyFloat pl.weight_kg = Except.ok w ∧
      pyFloat pl.budget_usd = Except.ok b ∧
      pyLower pl.goal = Except.ok g ∧ (g = "gain" ∨ g = "lose") ∧
      dbF = false ∧
      res = (queryItems pl.restaurant_id b (compute_target_calories w g) db).map
        (serializeItem db) := by
  cases hpt : pyFloat pl.tall_cm with
  | error e => simp [catalogRecommend, hpt] at h
  | ok t =>
    cases hpw : pyFloat pl.weight_kg with
    | error e => simp [catalogRecommend, hpt, hpw] at h
    | ok w =>
      cases hpb : pyFloat pl.budget_usd with
      | error e => simp [catalogRecommend, hpt, hpw, hpb] at h
      | ok b =>
        cases hpg : pyLower pl.goal with
        | error e => simp [catalogRecommend, hpt, hpw, hpb, hpg] at h
        | ok g =>
          simp only [catalogRecommend, hpt, hpw, hpb, hpg] at h
          split at h
          · split at h
            · simp at h
            · split at h
              · refine ⟨w, b, g, rfl, rfl, rfl, ?_, ?_, ?_⟩
                · rename_i hg _ _
                  simpa [Bool.or_eq_true, beq_iff_eq] using hg
                · rename_i hdb _
                  simpa using hdb
                · simpa using h.symm
              · simp at h
          · simp at h

/-- C4: for every weight `w > 0`,
`compute_target_calories(w, "gain") - compute_target_calories(w, "lose")`
is exactly 1000: both truncations apply to positive values that differ by
the integer 1000, so the `int()` truncation cancels. -/
theorem target_calories_gain_lose_diff (w : ℚ) (h : 0 < w) :
    compute_target_calories w "gain" - compute_target_calories w "lose" = 1000 := by
  have hgain : compute_target_calories w "gain" =
      pyInt (10 * w + 6.25 * 175 - 5 * 30 + 5 + 500) := by
    simp [compute_target_calories]
  have hlose : compute_target_calories w "lose" =
      pyInt (10 * w + 6.25 * 175 - 5 * 30 + 5 + -500) := by
    simp [compute_target_calories]
  have h1 : (0 : ℚ) ≤ 10 * w + 6.25 * 175 - 5 * 30 + 5 + 500 := by nlinarith
  have h2 : (0 : ℚ) ≤ 10 * w + 6.25 * 175 - 5 * 30 + 5 + -500 := by nlinarith
  rw [hgain, hlose, pyInt, pyInt, if_pos h1, if_pos h2]
  have h3 : (10 : ℚ) * w + 6.25 * 175 - 5 * 30 + 5 + 500 =
      (10 * w + 6.25 * 175 - 5 * 30 + 5 + -500) + (1000 : ℤ) := by
    push_cast
    ring
  rw [h3, Int.floor_add_int]
  ring

/-- Witness for C4 at `w = 70`. -/
theorem target_calories_gain_lose_diff_w :
    compute_target_calories 70 "gain" - compute_target_calories 70 "lose" = 1000 :=
  target_calories_gain_lose_diff 70 (by norm_num)

/-- C7: when the affordability fetch comes back empty, the plan-generation
endpoint answers 404 "No menu items within budget" and performs zero calls
to the inference collaborator. -/
theorem plan_empty_404_no_inference (profile : UserProfile)
    (rows : List PlanItem) (resp : HFResponse)
    (h : fetch_affordable_items rows profile.daily_budget_egp = []) :
    recommendPlan profile rows false resp =
      (Except.error (PlanError.httpEx 404 "No menu items within budget"), 0,
        [DbEvent.acquire, DbEvent.release]) := by
  simp [recommendPlan, h]

/-- Witness for C7: the spec's scenario profile with an empty item table. -/
theorem plan_empty_404_no_inference_w :
    recommendPlan sampleProfile [] false { status := 200, generated_text := "x" } =
      (Except.error (PlanError.httpEx 404 "No menu items within budget"), 0,
        [DbEvent.acquire, DbEvent.release]) :=
  plan_empty_404_no_inference _ _ _ rfl

/-- C8: the catalog `/recommend` endpoint returns at most 10 items, and
`fetch_affordable_items` returns at most 30 rows. -/
theorem result_caps :
    (∀ payload db dbF res, (catalogRecommend payload db dbF).1 = Except.ok res →
      res.length ≤ 10) ∧
    (∀ rows budget, (fetch_affordable_items rows budget).length ≤ 30) := by
  constructor
  · intro payload db dbF res h
    cases payload with
    | none => simp [catalogRecommend] at h
    | some pl =>
      obtain ⟨w, b, g, -, -, -, -, -, hres⟩ :=
        catalogRecommend_ok_inv pl db dbF res h
      subst hres
      simp only [List.length_map, queryItems]
      exact List.length_take_le 10 _
  · intro rows budget
    exact List.length_take_le 30 _

/-- Witness for C8's capped catalog result at a concrete request. -/
theorem result_caps_w : ([sampleOut] : List ResItem).length ≤ 10 :=
  result_caps.1 (some samplePayload) sampleDb false [sampleOut] (by decide)

/-- C3: with affordable items present, a 429 from the inference
collaborator is turned into the distinct quota-exceeded
`HTTPException(429)`, while any other non-success response escapes
`raise_for_status` as an error still carrying the collaborator's original
status (its translation to an HTTP reply is the excluded web framework's
default handling); in both cases exactly one call was made to the
collaborator, so nothing is retried. -/
theorem plan_upstream_error_translation (profile : UserProfile)
    (rows : List PlanItem) (resp : HFResponse)
    (hne : fetch_affordable_items rows profile.daily_budget_egp ≠ []) :
    (resp.status = 429 →
      recommendPlan profile rows false resp =
        (Except.error (PlanError.httpEx 429 "HF free‑tier token quota exceeded"),
          1, [DbEvent.acquire, DbEvent.release])) ∧
    (resp.status ≠ 429 → statusSuccess resp.status = false →
      recommendPlan profile rows false resp =
        (Except.error (PlanError.upstream resp.status),
          1, [DbEvent.acquire, DbEvent.release])) := by
  have hempty : (fetch_affordable_items rows profile.daily_budget_egp).isEmpty = false := by
    cases hf : fetch_affordable_items rows profile.daily_budget_egp with
    | nil => exact absurd hf hne
    | cons a l => rfl
  constructor
  · intro h429
    have hc : call_hf resp =
        Except.error (PlanError.httpEx 429 "HF free‑tier token quota exceeded") := by
      simp [call_hf, h429]
    simp [recommendPlan, hempty, hc]
  · intro h429 hfail
    have hc : call_hf resp = Except.error (PlanError.upstream resp.status) := by
      simp [call_hf, hfail, beq_eq_false_iff_ne, h429]
    simp [recommendPlan, hempty, hc]

/-- Witness for C3 on the 429 branch at a concrete request. -/
theorem plan_upstream_error_translation_w :
    recommendPlan sampleProfile [sampleRow] false
        { status := 429, generated_text := "" } =
      (Except.error (PlanError.httpEx 429 "HF free‑tier token quota exceeded"),
        1, [DbEvent.acquire, DbEvent.release]) :=
  (plan_upstream_error_translation sampleProfile [sampleRow]
    { status := 429, generated_text := "" } (by decide)).1 rfl

/-- C2: on a successful inference response, the returned `email_body` is
the response text with the echoed prompt removed and stripped when the
text starts with the exact prompt `build_prompt` produced (equivalently,
when the text is the prompt followed by a remainder, the body is that
remainder stripped of surrounding whitespace), and the unchanged response
text otherwise. -/
theorem plan_prompt_echo_strip (profile : UserProfile)
    (rows : List PlanItem) (resp : HFResponse)
    (hne : fetch_affordable_items rows profile.daily_budget_egp ≠ [])
    (hok : statusSuccess resp.status = true) :
    (∀ rest : String,
      resp.generated_text =
        build_prompt profile (fetch_affordable_items rows profile.daily_budget_egp)
          ++ rest →
      recommendPlan profile rows false resp =
        (Except.ok (pyStrip rest), 1, [DbEvent.acquire, DbEvent.release])) ∧
    (pyStartsWith resp.generated_text
        (build_prompt profile (fetch_affordable_items rows profile.daily_budget_egp))
        = false →
      recommendPlan profile rows false resp =
        (Except.ok resp.generated_text, 1, [DbEvent.acquire, DbEvent.release])) := by
  have hempty : (fetch_affordable_items rows profile.daily_budget_egp).isEmpty = false := by
    cases hf : fetch_affordable_items rows profile.daily_budget_egp with
    | nil => exact absurd hf hne
    | cons a l => rfl
  have h429 : resp.status ≠ 429 := by
    simp only [statusSuccess, Bool.and_eq_true, decide_eq_true_eq] at hok
    omega
  have hc : call_hf resp = Except.ok resp.generated_text := by
    simp [call_hf, beq_eq_false_iff_ne, h429, hok]
  constructor
  · intro rest hrest
    simp [recommendPlan, hempty, hc, hrest, pyStartsWith_append, pyDrop_append]
  · intro hnostart
    simp [recommendPlan, hempty, hc, hnostart]

/-- Witness for C2 on the echoed-prompt branch at a concrete request. -/
theorem plan_prompt_echo_strip_w :
    recommendPlan sampleProfile [sampleRow] false
        { status := 200,
          generated_text :=
            build_prompt sampleProfile
              (fetch_affordable_items [sampleRow] sampleProfile.daily_budget_egp)
              ++ "  a plan  " } =
      (Except.ok (pyStrip "  a plan  "), 1, [DbEvent.acquire, DbEvent.release]) :=
  (plan_prompt_echo_strip sampleProfile [sampleRow] _ (by decide) (by decide)).1
    "  a plan  " rfl

/-- C9: a catalog request whose numeric fields convert but whose `goal`
lowercases to neither "gain" nor "lose" is answered with
`abort(400, "Goal must be 'gain' or 'lose'")`, a message that names the
goal field. -/
theorem catalog_invalid_goal (pl : CatPayload) (db : CatDB) (dbF : Bool)
    (t w b : ℚ) (g : String)
    (ht : pl.tall_cm = JVal.num t) (hw : pl.weight_kg = JVal.num w)
    (hb : pl.budget_usd = JVal.num b) (hg : pl.goal = JVal.str g)
    (hg1 : pyLowerStr g ≠ "gain") (hg2 : pyLowerStr g ≠ "lose") :
    (catalogRecommend (some pl) db dbF).1 =
      Except.error (CatErr.badRequest "Goal must be 'gain' or 'lose'") ∧
    containsSub "Goal" "Goal must be 'gain' or 'lose'" = true := by
  refine ⟨?_, by decide⟩
  simp [catalogRecommend, ht, hw, hb, hg, pyFloat, pyLower, hg1, hg2]

/-- Witness for C9: the spec's scenario `goal = "maybe"`. -/
theorem catalog_invalid_goal_w :
    (catalogRecommend (some { samplePayload with goal := JVal.str "maybe" })
        sampleDb false).1 =
      Except.error (CatErr.badRequest "Goal must be 'gain' or 'lose'") ∧
    containsSub "Goal" "Goal must be 'gain' or 'lose'" = true :=
  catalog_invalid_goal _ sampleDb false 175 70 12 "maybe" rfl rfl rfl rfl
    (by decide) (by decide)

/-- C10: a falsy `restaurant_id` (absent/null — both arriving as `None`
from `payload.get` — or the number 0) leaves the query unrestricted: the
handler behaves exactly as with the field omitted, and the query base is
the whole `menu_items` table, rather than matching id 0 or failing. -/
theorem catalog_rid_falsy_unfiltered :
    (∀ (pl : CatPayload) (db : CatDB) (dbF : Bool),
      catalogRecommend (some { pl with restaurant_id := JVal.num 0 }) db dbF =
        catalogRecommend (some { pl with restaurant_id := JVal.null }) db dbF) ∧
    jTruthy JVal.null = false ∧ jTruthy (JVal.num 0) = false ∧
    (∀ (rid : JVal) (db : CatDB), jTruthy rid = false →
      candidateItems rid db = db.menu_items) := by
  refine ⟨?_, by decide, by decide, ?_⟩
  · intro pl db dbF
    obtain ⟨pt, pw, pb, pg, pr⟩ := pl
    have hq : ∀ b tc, queryItems (JVal.num 0) b tc db = queryItems JVal.null b tc db := by
      intro b tc
      simp [queryItems, candidateItems, jTruthy]
    cases hpt : pyFloat pt with
    | error e => simp [catalogRecommend, hpt]
    | ok t =>
      cases hpw : pyFloat pw with
      | error e => simp [catalogRecommend, hpt, hpw]
      | ok wv =>
        cases hpb : pyFloat pb with
        | error e => simp [catalogRecommend, hpt, hpw, hpb]
        | ok bv =>
          cases hpg : pyLower pg with
          | error e => simp [catalogRecommend, hpt, hpw, hpb, hpg]
          | ok gv => simp [catalogRecommend, hpt, hpw, hpb, hpg, hq]
  · intro rid db h
    simp [candidateItems, h]

/-- Witness for C10's unrestricted-query conjunct at `restaurant_id = 0`. -/
theorem catalog_rid_falsy_unfiltered_w :
    candidateItems (JVal.num 0) sampleDb = sampleDb.menu_items :=
  catalog_rid_falsy_unfiltered.2.2.2 (JVal.num 0) sampleDb (by decide)

/-- C1: every item a valid catalog `/recommend` request gets back is
within budget, within ±200 kcal of
`compute_target_calories(weight_kg, goal)`, and — when the request's
`restaurant_id` is truthy — belongs to that restaurant. -/
theorem catalog_filter_sound (pl : CatPayload) (db : CatDB) (dbF : Bool)
    (t w b : ℚ) (g : String) (res : List ResItem)
    (ht : pl.tall_cm = JVal.num t) (hw : pl.weight_kg = JVal.num w)
    (hb : pl.budget_usd = JVal.num b) (hg : pl.goal = JVal.str g)
    (hgl : g = "gain" ∨ g = "lose")
    (h : (catalogRecommend (some pl) db dbF).1 = Except.ok res) :
    ∀ it ∈ res, it.price_usd ≤ b ∧
      |it.calories - compute_target_calories w g| ≤ 200 ∧
      (jTruthy pl.restaurant_id = true →
        ridMatches pl.restaurant_id it.restaurant_id = true) := by
  obtain ⟨w', b', g', hw', hb', hg', hgl', hdb, hres⟩ :=
    catalogRecommend_ok_inv pl db dbF res h
  rw [hw] at hw'
  rw [hb] at hb'
  rw [hg] at hg'
  have hww : w = w' := by simpa [pyFloat] using hw'
  have hbb : b = b' := by simpa [pyFloat] using hb'
  have hgg : g' = g := by
    have hlg : pyLowerStr g = g' := by simpa [pyLower] using hg'
    cases hgl with
    | inl h1 =>
      subst h1
      rw [← hlg]
      decide
    | inr h1 =>
      subst h1
      rw [← hlg]
      decide
  subst hww
  subst hbb
  rw [hgg] at hres
  subst hres
  intro it hit
  obtain ⟨m, hm, rfl⟩ := List.mem_map.mp hit
  have hm' : m ∈ (candidateItems pl.restaurant_id db).filter (fun m =>
      decide (m.price_usd ≤ b) &&
      decide (m.calories ≤ compute_target_calories w g + 200) &&
      decide (compute_target_calories w g - 200 ≤ m.calories)) :=
    List.take_subset 10 _ hm
  rw [List.mem_filter] at hm'
  obtain ⟨hmc, hp⟩ := hm'
  simp only [Bool.and_eq_true, decide_eq_true_eq] at hp
  refine ⟨?_, ?_, ?_⟩
  · simpa [serializeItem] using hp.1.1
  · have h1 := hp.1.2
    have h2 := hp.2
    simp only [serializeItem]
    rw [abs_le]
    omega
  · intro htr
    rw [candidateItems, if_pos htr, List.mem_filter] at hmc
    simpa [serializeItem] using hmc.2

/-- Witness for C1 at a concrete request and store. -/
theorem catalog_filter_sound_w :
    sampleOut.price_usd ≤ 12 ∧
    |sampleOut.calories - compute_target_calories 70 "lose"| ≤ 200 ∧
    (jTruthy samplePayload.restaurant_id = true →
      ridMatches samplePayload.restaurant_id sampleOut.restaurant_id = true) :=
  catalog_filter_sound samplePayload sampleDb false 175 70 12 "lose" [sampleOut]
    rfl rfl rfl rfl (Or.inr rfl) (by decide) sampleOut (by decide)

/-- Counterexample to C6 as stated: with `tall_cm` missing (and every
other field valid) the catalog endpoint answers 400, but the message is
the generic `"Invalid payload: "` prefix plus CPython's `float()`
exception text, which does not contain the offending field name
`tall_cm`. -/
theorem catalog_validation_names_field_cx :
    (catalogRecommend (some { samplePayload with tall_cm := JVal.null })
        sampleDb false).1 =
      Except.error (CatErr.badRequest
        "Invalid payload: float() argument must be a string or a real number, not 'NoneType'") ∧
    containsSub "tall_cm"
      "Invalid payload: float() argument must be a string or a real number, not 'NoneType'"
      = false := by
  decide

/-- C6 (amended): a catalog request with a missing/non-numeric required
field or an out-of-enum goal is always rejected with a 400-class
`abort`; only the out-of-enum goal case has a message naming the field
(`"Goal must be 'gain' or 'lose'"`), the field-conversion failures
share the generic `"Invalid payload: ..."` message. -/
theorem catalog_field_validation_400 (pl : CatPayload) (db : CatDB) (dbF : Bool)
    (hbad : (∃ e, pyFloat pl.tall_cm = Except.error e) ∨
      (∃ e, pyFloat pl.weight_kg = Except.error e) ∨
      (∃ e, pyFloat pl.budget_usd = Except.error e) ∨
      (∃ e, pyLower pl.goal = Except.error e) ∨
      (∃ g, pyLower pl.goal = Except.ok g ∧ g ≠ "gain" ∧ g ≠ "lose")) :
    ∃ msg, (catalogRecommend (some pl) db dbF).1 =
      Except.error (CatErr.badRequest msg) := by
  cases hpt : pyFloat pl.tall_cm with
  | error e => exact ⟨"Invalid payload: " ++ e, by simp [catalogRecommend, hpt]⟩
  | ok t =>
    cases hpw : pyFloat pl.weight_kg with
    | error e => exact ⟨"Invalid payload: " ++ e, by simp [catalogRecommend, hpt, hpw]⟩
    | ok w =>
      cases hpb : pyFloat pl.budget_usd with
      | error e =>
        exact ⟨"Invalid payload: " ++ e, by simp [catalogRecommend, hpt, hpw, hpb]⟩
      | ok b =>
        cases hpg : pyLower pl.goal with
        | error e =>
          exact ⟨"Invalid payload: " ++ e,
            by simp [catalogRecommend, hpt, hpw, hpb, hpg]⟩
        | ok g =>
          have hgbad : g ≠ "gain" ∧ g ≠ "lose" := by
            rcases hbad with ⟨e, he⟩ | ⟨e, he⟩ | ⟨e, he⟩ | ⟨e, he⟩ | ⟨g', hg', hn1, hn2⟩
            · rw [hpt] at he
              cases he
            · rw [hpw] at he
              cases he
            · rw [hpb] at he
              cases he
            · rw [hpg] at he
              cases he
            · rw [hpg] at hg'
              cases hg'
              exact ⟨hn1, hn2⟩
          have h1 : (g == "gain") = false := by
            simp [beq_eq_false_iff_ne, hgbad.1]
          have h2 : (g == "lose") = false := by
            simp [beq_eq_false_iff_ne, hgbad.2]
          exact ⟨"Goal must be 'gain' or 'lose'",
            by simp [catalogRecommend, hpt, hpw, hpb, hpg, h1, h2]⟩

/-- Witness for the amended C6 at a request missing `tall_cm`. -/
theorem catalog_field_validation_400_w :
    ∃ msg, (catalogRecommend (some { samplePayload with tall_cm := JVal.null })
        sampleDb false).1 =
      Except.error (CatErr.badRequest msg) :=
  catalog_field_validation_400 _ sampleDb false
    (Or.inl ⟨"float() argument must be a string or a real number, not 'NoneType'", rfl⟩)

/-- Counterexample to C5 as stated: on a valid catalog request whose
database query fails, the handler exits with the session acquired and
never closed — `app.py` has no `try/finally` around the session. -/
theorem catalog_session_leak_cx :
    (catalogRecommend (some samplePayload) sampleDb true).2 = [DbEvent.acquire] ∧
    releasesAll [DbEvent.acquire] = false := by
  decide

/-- C5 (amended): the plan-generation service releases its connection on
every exit path, including database and upstream failures, thanks to
`get_db`'s `try/finally`; the catalog handlers release their session on
every path that does not abort by exception — validation failures exit
before the session exists, and the success path closes it — but a
handler-escaping exception (failing query, dangling relationship) leaks
the session. -/
theorem db_session_release_discipline :
    (∀ (profile : UserProfile) (rows : List PlanItem) (dbF : Bool)
        (resp : HFResponse),
      releasesAll (recommendPlan profile rows dbF resp).2.2 = true) ∧
    (∀ db : CatDB, releasesAll (getRestaurants db false).2 = true) ∧
    (∀ (payload : Option CatPayload) (db : CatDB),
      (catalogRecommend payload db false).1 ≠ Except.error CatErr.exception →
      releasesAll (catalogRecommend payload db false).2 = true) := by
  refine ⟨?_, ?_, ?_⟩
  · intro profile rows dbF resp
    cases dbF with
    | true => rfl
    | false =>
      simp only [recommendPlan, Bool.false_eq_true, if_false]
      split
      · rfl
      · cases hc : call_hf resp <;> rfl
  · intro db
    rfl
  · intro payload db h
    cases payload with
    | none => rfl
    | some pl =>
      cases hpt : pyFloat pl.tall_cm with
      | error e => simp [catalogRecommend, hpt, releasesAll]
      | ok t =>
        cases hpw : pyFloat pl.weight_kg with
        | error e => simp [catalogRecommend, hpt, hpw, releasesAll]
        | ok w =>
          cases hpb : pyFloat pl.budget_usd with
          | error e => simp [catalogRecommend, hpt, hpw, hpb, releasesAll]
          | ok b =>
            cases hpg : pyLower pl.goal with
            | error e => simp [catalogRecommend, hpt, hpw, hpb, hpg, releasesAll]
            | ok g =>
              by_cases hg : (g == "gain" || g == "lose") = true
              · by_cases hall :
                  (queryItems pl.restaurant_id b (compute_target_calories w g)
                    db).all (itemHasRestaurant db) = true
                · have hrun : catalogRecommend (some pl) db false =
                      (Except.ok ((queryItems pl.restaurant_id b
                          (compute_target_calories w g) db).map (serializeItem db)),
                        [DbEvent.acquire, DbEvent.release]) := by
                    simp [catalogRecommend, hpt, hpw, hpb, hpg, hg, hall]
                  rw [hrun]
                  rfl
                · exfalso
                  apply h
                  rw [Bool.not_eq_true] at hall
                  simp [catalogRecommend, hpt, hpw, hpb, hpg, hg, hall]
              · rw [Bool.not_eq_true] at hg
                have hrun : catalogRecommend (some pl) db false =
                    (Except.error (CatErr.badRequest "Goal must be 'gain' or 'lose'"),
                      []) := by
                  simp [catalogRecommend, hpt, hpw, hpb, hpg, hg]
                rw [hrun]
                rfl

/-- Witness for the amended C5's catalog conjunct at a concrete request. -/
theorem db_session_release_discipline_w :
    releasesAll (catalogRecommend (some samplePayload) sampleDb false).2 = true :=
  db_session_release_discipline.2.2 (some samplePayload) sampleDb (by decide)
